import Mathlib

/-!
Shallow embedding of `src/rust/tw_bitcoin/src/ordinals.rs` (Ordinals
inscription construction) together with the rust-bitcoin primitives it
calls (`PushBytesBuf::extend_from_slice`, `script::Builder::push_opcode`,
`script::Builder::push_slice`, `TaprootBuilder::add_leaf` / `finalize`).

Bytes are lists of naturals (each entry a byte value).  The external
elliptic-curve and hashing operations (tagged SHA256 leaf/branch hashes and
the Taproot key tweak) are modelled symbolically by injective constructors:
the claims under verification only depend on which inputs these operations
receive, never on the numeric value of a hash.
-/

namespace WalletCore

/-- Byte sequences are lists of naturals; each entry is a byte value. -/
abbrev Bytes := List Nat

/-- The crate-level error enum of `tw_bitcoin`.  Modelled from the spec:
the crate's `Error` type lives outside `src/`; the spec says push-encoding
failures surface as one generic "could not build push data" variant. -/
inductive Error where
  | Todo
deriving DecidableEq, Repr

/-- Outcome of running embedded Rust code, with panics (`expect`) made
explicit rather than modelled as ordinary errors. -/
inductive RunResult (α : Type) where
  | ok (a : α)
  | err (e : Error)
  | panicked (msg : String)
deriving DecidableEq, Repr

/-- `PushBytesBuf::extend_from_slice` (rust-bitcoin `push_bytes`): appends a
slice to a push-bytes buffer, failing iff the resulting length no longer
fits the largest possible push operand, `2^32 - 1` bytes (the PUSHDATA4
length field is a `u32`). -/
def pushBytesExtend (buf : Bytes) (s : Bytes) : Except Unit Bytes :=
  if buf.length + s.length < 2 ^ 32 then .ok (buf ++ s) else .error ()

/-- Script opcodes used by `create_envelope` (byte values from rust-bitcoin
`opcodes`).  `OP_FALSE` is an alias for `OP_PUSHBYTES_0`. -/
def OP_FALSE : Nat := 0x00

def OP_IF : Nat := 0x63

def OP_PUSHBYTES_0 : Nat := 0x00

def OP_PUSHBYTES_1 : Nat := 0x01

def OP_PUSHDATA1 : Nat := 0x4c

def OP_PUSHDATA2 : Nat := 0x4d

def OP_PUSHDATA4 : Nat := 0x4e

def OP_ENDIF : Nat := 0x68

/-- Little-endian 4-byte encoding of a `u32` length. -/
def u32LE (n : Nat) : Bytes := [n % 256, n / 256 % 256, n / 2 ^ 16 % 256, n / 2 ^ 24 % 256]

/-- Framing emitted by `script::Builder::push_slice` for a push operand:
payloads of 75 bytes or fewer get a single length byte; longer payloads get
an `OP_PUSHDATA1`/`OP_PUSHDATA2`/`OP_PUSHDATA4` opcode, the length in 1, 2
or 4 little-endian bytes, then the payload.  (For lengths of `2^32` bytes
or more rust-bitcoin panics, but every operand reaching `push_slice` in
`create_envelope` has passed the `PushBytesBuf` length check, which caps
lengths strictly below `2^32`.) -/
def pushSliceEncoding (data : Bytes) : Bytes :=
  if data.length < 76 then data.length :: data
  else if data.length < 2 ^ 8 then OP_PUSHDATA1 :: data.length :: data
  else if data.length < 2 ^ 16 then OP_PUSHDATA2 :: data.length % 256 :: data.length / 256 :: data
  else OP_PUSHDATA4 :: (u32LE data.length ++ data)

/-- The byte buffer underlying `script::Builder` / `ScriptBuf`. -/
structure Builder where
  bytes : Bytes
deriving DecidableEq, Repr

/-- `ScriptBuf::builder()`: an empty script builder. -/
def Builder.new : Builder := ⟨[]⟩

/-- `script::Builder::push_opcode`: appends a single opcode byte. -/
def Builder.push_opcode (b : Builder) (op : Nat) : Builder := ⟨b.bytes ++ [op]⟩

/-- `script::Builder::push_slice`: appends a push operand with its default
minimal framing. -/
def Builder.push_slice (b : Builder) (data : Bytes) : Builder :=
  ⟨b.bytes ++ pushSliceEncoding data⟩

/-- A secp256k1 public key in compressed form: x coordinate plus the parity
of y.  The curve arithmetic itself is external to the crate. -/
structure PublicKey where
  x : Nat
  parity : Bool
deriving DecidableEq, Repr

/-- An x-only public key (BIP-340): the x coordinate alone. -/
structure XOnlyPublicKey where
  x : Nat
deriving DecidableEq, Repr

/-- `XOnlyPublicKey::from(pk.inner)`: drops the parity byte. -/
def xOnlyFrom (pk : PublicKey) : XOnlyPublicKey := ⟨pk.x⟩

/-- Taproot node hashes, modelled symbolically: the external library
computes tagged SHA256 hashes over (leaf version, script) for leaves and
over the two (lexicographically sorted) child hashes for branches;
collision resistance is modelled by constructor injectivity, and the
lexicographic sorting of branch children is folded into the symbolic
constructor. -/
inductive TapNodeHash where
  | leafHash (version : Nat) (script : Bytes)
  | branchHash (l r : TapNodeHash)
deriving DecidableEq, Repr

/-- One tapscript leaf: script bytes plus leaf version byte. -/
structure LeafInfo where
  script : Bytes
  version : Nat
deriving DecidableEq, Repr

/-- rust-bitcoin `taproot::NodeInfo`: a partially built tree node carrying
its hash and the leaves beneath it. -/
structure NodeInfo where
  hash : TapNodeHash
  leaves : List LeafInfo
deriving DecidableEq, Repr

/-- `NodeInfo::new_leaf_with_ver`. -/
def NodeInfo.new_leaf_with_ver (script : Bytes) (ver : Nat) : NodeInfo :=
  ⟨.leafHash ver script, [⟨script, ver⟩]⟩

/-- `NodeInfo::combine`: hash the two children into a branch node and merge
their leaves. -/
def NodeInfo.combine (a b : NodeInfo) : NodeInfo :=
  ⟨.branchHash a.hash b.hash, a.leaves ++ b.leaves⟩

/-- rust-bitcoin `TaprootBuilderError` variants reachable from `insert`. -/
inductive TaprootBuilderError where
  | InvalidMerkleTreeDepth
  | NodeNotInDfsOrder
  | OverCompleteTree
deriving DecidableEq, Repr

/-- rust-bitcoin `TaprootBuilder`: a stack of optional nodes, one slot per
depth, filled in DFS order. -/
structure TaprootBuilder where
  branch : List (Option NodeInfo)
deriving DecidableEq, Repr

/-- `TaprootBuilder::new()`. -/
def TaprootBuilder.new : TaprootBuilder := ⟨[]⟩

/-- The combining loop inside `TaprootBuilder::insert`: while the branch
stack reaches exactly `depth + 1` slots, pop the top node and combine it
with the node being inserted, moving one level up; inserting at depth 0
over an already complete tree is `OverCompleteTree`.  Returns the final
depth, node and remaining stack. -/
def insertLoop (depth : Nat) (node : NodeInfo) (branch : List (Option NodeInfo)) :
    Except TaprootBuilderError (Nat × NodeInfo × List (Option NodeInfo)) :=
  if branch.length = depth + 1 then
    match branch.getLast? with
    | some (some child) =>
      match depth with
      | 0 => .error .OverCompleteTree
      | d + 1 => insertLoop d (NodeInfo.combine child node) branch.dropLast
    | some none => .ok (depth, node, branch.dropLast)
    | none => .ok (depth, node, branch)
  else .ok (depth, node, branch)

/-- `TaprootBuilder::insert`: reject depths above 128 and out-of-DFS-order
insertions, run the combining loop, pad the stack with empty slots up to
the final depth, and store the node there. -/
def TaprootBuilder.insert (b : TaprootBuilder) (node : NodeInfo) (depth : Nat) :
    Except TaprootBuilderError TaprootBuilder :=
  if depth > 128 then .error .InvalidMerkleTreeDepth
  else if depth + 1 < b.branch.length then .error .NodeNotInDfsOrder
  else
    match insertLoop depth node b.branch with
    | .error e => .error e
    | .ok (depth, node, branch) =>
      let branch :=
        if branch.length < depth + 1 then
          branch ++ List.replicate (depth + 1 - branch.length) none
        else branch
      .ok ⟨branch.set depth (some node)⟩

/-- The default tapscript leaf version (`LeafVersion::TapScript`), byte
value `0xc0`. -/
def TAPROOT_LEAF_TAPSCRIPT : Nat := 0xc0

/-- `TaprootBuilder::add_leaf_with_ver`. -/
def TaprootBuilder.add_leaf_with_ver (b : TaprootBuilder) (depth : Nat) (script : Bytes)
    (ver : Nat) : Except TaprootBuilderError TaprootBuilder :=
  b.insert (NodeInfo.new_leaf_with_ver script ver) depth

/-- `TaprootBuilder::add_leaf`: adds a leaf at the given depth with the
default tapscript leaf version. -/
def TaprootBuilder.add_leaf (b : TaprootBuilder) (depth : Nat) (script : Bytes) :
    Except TaprootBuilderError TaprootBuilder :=
  b.add_leaf_with_ver depth script TAPROOT_LEAF_TAPSCRIPT

/-- A tweaked (Taproot output) key, modelled symbolically as the pair of
the internal key and the optional Merkle root tweaking it. -/
structure TweakedPublicKey where
  internal : XOnlyPublicKey
  tweak : Option TapNodeHash
deriving DecidableEq, Repr

/-- rust-bitcoin `TaprootSpendInfo` (the fields the crate observes). -/
structure TaprootSpendInfo where
  internal_key : XOnlyPublicKey
  merkle_root : Option TapNodeHash
  output_key : TweakedPublicKey
  leaves : List LeafInfo
deriving DecidableEq, Repr

/-- `TaprootSpendInfo::new_key_spend`. -/
def TaprootSpendInfo.new_key_spend (internal_key : XOnlyPublicKey)
    (merkle_root : Option TapNodeHash) : TaprootSpendInfo :=
  ⟨internal_key, merkle_root, ⟨internal_key, merkle_root⟩, []⟩

/-- `TaprootSpendInfo::from_node_info`: key-spend data tweaked by the root
hash, plus the script map of the tree's leaves. -/
def TaprootSpendInfo.from_node_info (internal_key : XOnlyPublicKey) (node : NodeInfo) :
    TaprootSpendInfo :=
  ⟨internal_key, some node.hash, ⟨internal_key, some node.hash⟩, node.leaves⟩

/-- `TaprootBuilder::finalize`: an empty builder yields key-spend-only data
with no Merkle root; a single completed slot yields the spend data of that
tree; anything else returns the builder as the error.  (The `[none]` case
is the library's `unreachable!` branch.) -/
def TaprootBuilder.finalize (b : TaprootBuilder) (internal_key : XOnlyPublicKey) :
    Except TaprootBuilder TaprootSpendInfo :=
  match b.branch with
  | [] => .ok (TaprootSpendInfo.new_key_spend internal_key none)
  | [some node] => .ok (TaprootSpendInfo.from_node_info internal_key node)
  | _ => .error b

/-- Modelled from the spec: `TaprootProgram` (crate type outside `src/`,
spec section 3): the envelope script bytes plus the Taproot spend info. -/
structure TaprootProgram where
  script : Bytes
  spend_info : TaprootSpendInfo
deriving DecidableEq, Repr

/-- Modelled from the spec: `Recipient<PublicKey>` (crate type outside
`src/`), a recipient wrapping a plain public key. -/
structure RecipientPublicKey where
  public_key : PublicKey
deriving DecidableEq, Repr

/-- Modelled from the spec: `Recipient<TaprootScript>` (crate type outside
`src/`), binding a public key to a Merkle root. -/
structure RecipientTaprootScript where
  public_key : PublicKey
  merkle_root : TapNodeHash
deriving DecidableEq, Repr

/-- Modelled from the spec: `Recipient::<TaprootScript>::from_pubkey_recipient`
(crate code outside `src/`), deterministically binding the computed Merkle
root onto the caller's plain-key recipient. -/
def from_pubkey_recipient (r : RecipientPublicKey) (merkle_root : TapNodeHash) :
    RecipientTaprootScript :=
  ⟨r.public_key, merkle_root⟩

/-- The byte string `b"ord"`. -/
def ordBytes : Bytes := [0x6f, 0x72, 0x64]

/-- `create_envelope` from `ordinals.rs`, line for line: validate the mime
and data operands as push bytes (`Error::Todo` on overflow), assemble the
envelope script through the builder — `OP_FALSE OP_IF`, push of `"ord"`,
an `OP_PUSHBYTES_1` separator, an extra `OP_PUSHBYTES_1` when
`data.len() < 76`, the mime push, an `OP_PUSHBYTES_0` separator, the data
push, `OP_ENDIF` — then build and finalize a single-leaf Taproot tree over
the script with the x-only internal key; the two `expect` calls surface as
`panicked`. -/
def create_envelope (mime data : Bytes) (internal_key : PublicKey) :
    RunResult TaprootProgram :=
  match pushBytesExtend [] mime with
  | .error _ => .err .Todo
  | .ok mime_buf =>
    match pushBytesExtend [] data with
    | .error _ => .err .Todo
    | .ok data_buf =>
      let builder :=
        ((((Builder.new.push_opcode OP_FALSE).push_opcode OP_IF).push_slice
          ordBytes).push_opcode OP_PUSHBYTES_1)
      let builder :=
        if data.length < 76 then builder.push_opcode OP_PUSHBYTES_1 else builder
      let script :=
        ((((builder.push_slice mime_buf).push_opcode OP_PUSHBYTES_0).push_slice
          data_buf).push_opcode OP_ENDIF).bytes
      match TaprootBuilder.new.add_leaf 0 script with
      | .error _ => .panicked "Ordinals Inscription spending info must always build"
      | .ok b =>
        match b.finalize (xOnlyFrom internal_key) with
        | .error _ => .panicked "Ordinals Inscription spending info must always build"
        | .ok spend_info => .ok ⟨script, spend_info⟩

/-- The inscription value: envelope program plus derived recipient. -/
structure OrdinalsInscription where
  envelope : TaprootProgram
  recipient : RecipientTaprootScript
deriving DecidableEq, Repr

/-- `OrdinalsInscription::new`: run `create_envelope`, extract the Merkle
root (the `expect` surfaces as `panicked`), and bind it onto the plain-key
recipient. -/
def OrdinalsInscription.new (mime data : Bytes) (recipient : RecipientPublicKey) :
    RunResult OrdinalsInscription :=
  match create_envelope mime data recipient.public_key with
  | .err e => .err e
  | .panicked m => .panicked m
  | .ok envelope =>
    match envelope.spend_info.merkle_root with
    | none => .panicked "Ordinals envelope not constructed correctly"
    | some merkle_root => .ok ⟨envelope, from_pubkey_recipient recipient merkle_root⟩

/-- `OrdinalsInscription::taproot_program`: the envelope script bytes. -/
def OrdinalsInscription.taproot_program (i : OrdinalsInscription) : Bytes :=
  i.envelope.script

/-- The script bytes of a construction outcome, when it succeeded. -/
def scriptOf : RunResult TaprootProgram → Option Bytes
  | .ok tp => some tp.script
  | _ => none

/-- The spend info of a construction outcome, when it succeeded. -/
def spendInfoOf : RunResult TaprootProgram → Option TaprootSpendInfo
  | .ok tp => some tp.spend_info
  | _ => none

/-- The mime field as the spec describes it: the override opcode
`OP_PUSHBYTES_1` (present exactly when `data` is shorter than 76 bytes)
followed by the default minimal-push framing of the mime bytes. -/
def specMimeField (mime data : Bytes) : Bytes :=
  (if data.length < 76 then [OP_PUSHBYTES_1] else []) ++ pushSliceEncoding mime

/-- The envelope layout as the spec describes it: `OP_FALSE OP_IF`, the
push of `"ord"`, the `OP_PUSHBYTES_1` separator, the mime field, the
`OP_PUSHBYTES_0` separator, the data push, `OP_ENDIF`. -/
def specEnvelopeLayout (mime data : Bytes) : Bytes :=
  [OP_FALSE, OP_IF] ++ pushSliceEncoding ordBytes ++ [OP_PUSHBYTES_1] ++
    specMimeField mime data ++ [OP_PUSHBYTES_0] ++ pushSliceEncoding data ++ [OP_ENDIF]

/-- A fixed concrete public key used for counterexamples and witnesses. -/
def pk0 : PublicKey := ⟨2, false⟩

lemma pushBytesExtend_nil_ok {s : Bytes} (h : s.length < 2 ^ 32) :
    pushBytesExtend [] s = .ok s := by
  simp only [pushBytesExtend, List.length_nil, Nat.zero_add, if_pos h, List.nil_append]

lemma pushBytesExtend_nil_err {s : Bytes} (h : ¬ s.length < 2 ^ 32) :
    pushBytesExtend [] s = .error () := by
  simp only [pushBytesExtend, List.length_nil, Nat.zero_add, if_neg h]

/-- Evaluation of `create_envelope` on operands that pass the push-bytes
length check: the script is the spec layout and the spend info is the
finalization of the single-leaf tree over it at the default tapscript leaf
version, keyed by the x-only internal key. -/
lemma create_envelope_ok (mime data : Bytes) (k : PublicKey)
    (hm : mime.length < 2 ^ 32) (hd : data.length < 2 ^ 32) :
    create_envelope mime data k =
      .ok ⟨specEnvelopeLayout mime data,
        TaprootSpendInfo.from_node_info (xOnlyFrom k)
          (NodeInfo.new_leaf_with_ver (specEnvelopeLayout mime data)
            TAPROOT_LEAF_TAPSCRIPT)⟩ := by
  unfold create_envelope
  rw [pushBytesExtend_nil_ok hm, pushBytesExtend_nil_ok hd]
  by_cases hdl : data.length < 76 <;>
    simp [specEnvelopeLayout, specMimeField, hdl, Builder.new, Builder.push_opcode,
      Builder.push_slice, TaprootBuilder.add_leaf, TaprootBuilder.add_leaf_with_ver,
      TaprootBuilder.insert, insertLoop, TaprootBuilder.new, TaprootBuilder.finalize,
      NodeInfo.new_leaf_with_ver, TaprootSpendInfo.from_node_info]

/-- Evaluation of `create_envelope` when the mime operand overflows the
push-bytes limit. -/
lemma create_envelope_err_mime (mime data : Bytes) (k : PublicKey)
    (hm : ¬ mime.length < 2 ^ 32) :
    create_envelope mime data k = .err .Todo := by
  unfold create_envelope
  rw [pushBytesExtend_nil_err hm]

/-- Evaluation of `create_envelope` when the data operand overflows the
push-bytes limit. -/
lemma create_envelope_err_data (mime data : Bytes) (k : PublicKey)
    (hm : mime.length < 2 ^ 32) (hd : ¬ data.length < 2 ^ 32) :
    create_envelope mime data k = .err .Todo := by
  unfold create_envelope
  rw [pushBytesExtend_nil_ok hm, pushBytesExtend_nil_err hd]

/-- The mime bytes of the spec's worked example, `b"text/plain"`. -/
def mimeTextPlain : Bytes := [0x74, 0x65, 0x78, 0x74, 0x2f, 0x70, 0x6c, 0x61, 0x69, 0x6e]

/-- The data bytes of the spec's worked example, `b"hello"`. -/
def dataHello : Bytes := [0x68, 0x65, 0x6c, 0x6c, 0x6f]

/-- Claim C1 (counterexample): with `mime` a single byte (well under 75
bytes) and `data` 76 bytes long, the produced script does not carry the
override opcode before the mime push — the claim's "regardless of the
mime's length, even when the mime is 75 bytes or fewer" fails, because the
override is keyed on the data length. -/
theorem mime_override_not_unconditional :
    scriptOf (create_envelope [0x61] (List.replicate 76 0x62) pk0) ≠
      some ([OP_FALSE, OP_IF] ++ pushSliceEncoding ordBytes ++ [OP_PUSHBYTES_1] ++
        [OP_PUSHBYTES_1] ++ pushSliceEncoding [0x61] ++ [OP_PUSHBYTES_0] ++
        pushSliceEncoding (List.replicate 76 0x62) ++ [OP_ENDIF]) := by
  decide

/-- Claim C1 (amended): whenever `data` is shorter than 76 bytes, the
script carries the explicit override opcode `OP_PUSHBYTES_1` immediately
before the mime push, for every mime that fits a push operand — in
particular even when the mime is 75 bytes or fewer.  (As stated the claim
fails when `data` is 76 bytes or longer: the override is keyed on the
length of `data`, not of `mime`.) -/
theorem mime_override_when_data_small (mime data : Bytes) (k : PublicKey)
    (hm : mime.length < 2 ^ 32) (hd : data.length < 76) :
    scriptOf (create_envelope mime data k) =
      some ([OP_FALSE, OP_IF] ++ pushSliceEncoding ordBytes ++ [OP_PUSHBYTES_1] ++
        [OP_PUSHBYTES_1] ++ pushSliceEncoding mime ++ [OP_PUSHBYTES_0] ++
        pushSliceEncoding data ++ [OP_ENDIF]) := by
  rw [create_envelope_ok mime data k hm (hd.trans (by norm_num))]
  simp [scriptOf, specEnvelopeLayout, specMimeField, hd]

/-- Witness for the amended claim C1, at `mime = "a"`, `data = "b"`. -/
theorem mime_override_when_data_small_witness :
    scriptOf (create_envelope [0x61] [0x62] pk0) =
      some ([OP_FALSE, OP_IF] ++ pushSliceEncoding ordBytes ++ [OP_PUSHBYTES_1] ++
        [OP_PUSHBYTES_1] ++ pushSliceEncoding [0x61] ++ [OP_PUSHBYTES_0] ++
        pushSliceEncoding [0x62] ++ [OP_ENDIF]) :=
  mime_override_when_data_small [0x61] [0x62] pk0 (by decide) (by decide)

/-- Claim C2: when `data.len() < 76` the mime push is preceded by one extra
`OP_PUSHBYTES_1` beyond the separator; when `data.len() >= 76` the mime
push uses only the default minimal framing with no override — and in both
branches the mime is arbitrary, so the decision depends on the length of
`data`, not of `mime`. -/
theorem mime_framing_keyed_on_data_length (mime data : Bytes) (k : PublicKey)
    (hm : mime.length < 2 ^ 32) (hd : data.length < 2 ^ 32) :
    (data.length < 76 →
      scriptOf (create_envelope mime data k) =
        some ([OP_FALSE, OP_IF] ++ pushSliceEncoding ordBytes ++ [OP_PUSHBYTES_1] ++
          [OP_PUSHBYTES_1] ++ pushSliceEncoding mime ++ [OP_PUSHBYTES_0] ++
          pushSliceEncoding data ++ [OP_ENDIF])) ∧
    (76 ≤ data.length →
      scriptOf (create_envelope mime data k) =
        some ([OP_FALSE, OP_IF] ++ pushSliceEncoding ordBytes ++ [OP_PUSHBYTES_1] ++
          pushSliceEncoding mime ++ [OP_PUSHBYTES_0] ++
          pushSliceEncoding data ++ [OP_ENDIF])) := by
  rw [create_envelope_ok mime data k hm hd]
  constructor
  · intro h
    simp [scriptOf, specEnvelopeLayout, specMimeField, h]
  · intro h
    simp [scriptOf, specEnvelopeLayout, specMimeField, Nat.not_lt.mpr h]

/-- Witness for claim C2, exercising the small-data branch at
`mime = "a"`, `data = "hello"`. -/
theorem mime_framing_keyed_on_data_length_witness :
    scriptOf (create_envelope [0x61] dataHello pk0) =
      some ([OP_FALSE, OP_IF] ++ pushSliceEncoding ordBytes ++ [OP_PUSHBYTES_1] ++
        [OP_PUSHBYTES_1] ++ pushSliceEncoding [0x61] ++ [OP_PUSHBYTES_0] ++
        pushSliceEncoding dataHello ++ [OP_ENDIF]) :=
  (mime_framing_keyed_on_data_length [0x61] dataHello pk0 (by decide) (by decide)).1
    (by decide)

/-- Claim C3 (counterexample): for `mime = "a"`, `data = "b"` the script is
not the claimed sequence separator-then-mime-push: the extra override
opcode sits between the `OP_PUSHBYTES_1` separator and the mime push, so
the claim's enumeration (which goes directly from the separator to the
mime push) misses a byte. -/
theorem envelope_layout_without_override_refuted :
    scriptOf (create_envelope [0x61] [0x62] pk0) ≠
      some ([OP_FALSE, OP_IF] ++ pushSliceEncoding ordBytes ++ [OP_PUSHBYTES_1] ++
        pushSliceEncoding [0x61] ++ [OP_PUSHBYTES_0] ++ pushSliceEncoding [0x62] ++
        [OP_ENDIF]) := by
  decide

/-- Claim C3 (amended): for every encodable mime and data the script is
`OP_FALSE OP_IF`, the push of `"ord"`, the `OP_PUSHBYTES_1` separator,
then — when `data.len() < 76` — an extra `OP_PUSHBYTES_1` override opcode,
then the mime push, the `OP_PUSHBYTES_0` empty-push separator, the data
push, and finally `OP_ENDIF`. -/
theorem envelope_layout (mime data : Bytes) (k : PublicKey)
    (hm : mime.length < 2 ^ 32) (hd : data.length < 2 ^ 32) :
    scriptOf (create_envelope mime data k) =
      some ([OP_FALSE, OP_IF] ++ pushSliceEncoding ordBytes ++ [OP_PUSHBYTES_1] ++
        (if data.length < 76 then [OP_PUSHBYTES_1] else []) ++ pushSliceEncoding mime ++
        [OP_PUSHBYTES_0] ++ pushSliceEncoding data ++ [OP_ENDIF]) := by
  rw [create_envelope_ok mime data k hm hd]
  simp [scriptOf, specEnvelopeLayout, specMimeField]

/-- Witness for the amended claim C3, at `mime = "text/plain"`,
`data = "hello"`. -/
theorem envelope_layout_witness :
    scriptOf (create_envelope mimeTextPlain dataHello pk0) =
      some ([OP_FALSE, OP_IF] ++ pushSliceEncoding ordBytes ++ [OP_PUSHBYTES_1] ++
        (if dataHello.length < 76 then [OP_PUSHBYTES_1] else []) ++
        pushSliceEncoding mimeTextPlain ++
        [OP_PUSHBYTES_0] ++ pushSliceEncoding dataHello ++ [OP_ENDIF]) :=
  envelope_layout mimeTextPlain dataHello pk0 (by decide) (by decide)

/-- Claim C4 (counterexample): for `mime = b"text/plain"`,
`data = b"hello"` the produced script is not the claimed byte sequence —
there is no `OP_PUSHDATA1` (0x4c) opcode before the mime push; the byte
actually emitted there is `OP_PUSHBYTES_1` (0x01). -/
theorem example_script_has_no_pushdata1 :
    scriptOf (create_envelope mimeTextPlain dataHello pk0) ≠
      some ([OP_FALSE, OP_IF, 0x03] ++ ordBytes ++
        [OP_PUSHBYTES_1, 0x01, OP_PUSHDATA1, 0x0a] ++ mimeTextPlain ++
        [OP_PUSHBYTES_0, 0x05] ++ dataHello ++ [OP_ENDIF]) := by
  decide

/-- Claim C4 (amended): for `mime = b"text/plain"`, `data = b"hello"` and
any internal key, the script is exactly `OP_FALSE OP_IF PUSH(3,"ord")
PUSH(1,[1]) PUSH(10,"text/plain") PUSH(0,[]) PUSH(5,"hello") OP_ENDIF` as
raw bytes — the opcode before the mime push's length byte is the override
`OP_PUSHBYTES_1` (0x01), not `OP_PUSHDATA1` (0x4c). -/
theorem example_script_exact_bytes (k : PublicKey) :
    scriptOf (create_envelope mimeTextPlain dataHello k) =
      some ([OP_FALSE, OP_IF, 0x03] ++ ordBytes ++
        [OP_PUSHBYTES_1, OP_PUSHBYTES_1, 0x0a] ++ mimeTextPlain ++
        [OP_PUSHBYTES_0, 0x05] ++ dataHello ++ [OP_ENDIF]) := by
  rfl

/-- Evaluation of `OrdinalsInscription::new` on operands that pass the
push-bytes length check: the envelope is as computed by `create_envelope`
and the recipient binds the Merkle root of the single leaf. -/
lemma new_ok (mime data : Bytes) (r : RecipientPublicKey)
    (hm : mime.length < 2 ^ 32) (hd : data.length < 2 ^ 32) :
    OrdinalsInscription.new mime data r =
      .ok ⟨⟨specEnvelopeLayout mime data,
            TaprootSpendInfo.from_node_info (xOnlyFrom r.public_key)
              (NodeInfo.new_leaf_with_ver (specEnvelopeLayout mime data)
                TAPROOT_LEAF_TAPSCRIPT)⟩,
          from_pubkey_recipient r
            (.leafHash TAPROOT_LEAF_TAPSCRIPT (specEnvelopeLayout mime data))⟩ := by
  unfold OrdinalsInscription.new
  rw [create_envelope_ok mime data r.public_key hm hd]
  rfl

/-- Evaluation of `OrdinalsInscription::new` when the mime operand
overflows the push-bytes limit. -/
lemma new_err_mime (mime data : Bytes) (r : RecipientPublicKey)
    (hm : ¬ mime.length < 2 ^ 32) :
    OrdinalsInscription.new mime data r = .err .Todo := by
  unfold OrdinalsInscription.new
  rw [create_envelope_err_mime mime data r.public_key hm]

/-- Evaluation of `OrdinalsInscription::new` when the data operand
overflows the push-bytes limit. -/
lemma new_err_data (mime data : Bytes) (r : RecipientPublicKey)
    (hm : mime.length < 2 ^ 32) (hd : ¬ data.length < 2 ^ 32) :
    OrdinalsInscription.new mime data r = .err .Todo := by
  unfold OrdinalsInscription.new
  rw [create_envelope_err_data mime data r.public_key hm hd]

/-- Claim C5: `OrdinalsInscription::new` succeeds exactly when both mime
and data fit the maximum push-operand size (`2^32 - 1` bytes); otherwise it
returns the distinguishable error value `Error::Todo`; and it never
panics. -/
theorem new_fails_iff_operand_overflow (mime data : Bytes) (r : RecipientPublicKey) :
    ((∃ ins, OrdinalsInscription.new mime data r = .ok ins) ↔
      mime.length < 2 ^ 32 ∧ data.length < 2 ^ 32) ∧
    (¬ (mime.length < 2 ^ 32 ∧ data.length < 2 ^ 32) →
      OrdinalsInscription.new mime data r = .err .Todo) ∧
    (∀ msg, OrdinalsInscription.new mime data r ≠ .panicked msg) := by
  by_cases hm : mime.length < 2 ^ 32
  · by_cases hd : data.length < 2 ^ 32
    · refine ⟨⟨fun _ => ⟨hm, hd⟩, fun _ => ⟨_, new_ok mime data r hm hd⟩⟩,
        fun hc => absurd ⟨hm, hd⟩ hc, fun msg => ?_⟩
      simp [new_ok mime data r hm hd]
    · refine ⟨⟨fun h => ?_, fun h => absurd h.2 hd⟩, fun _ => new_err_data mime data r hm hd,
        fun msg => ?_⟩
      · obtain ⟨ins, hins⟩ := h
        rw [new_err_data mime data r hm hd] at hins
        cases hins
      · simp [new_err_data mime data r hm hd]
  · refine ⟨⟨fun h => ?_, fun h => absurd h.1 hm⟩, fun _ => new_err_mime mime data r hm,
      fun msg => ?_⟩
    · obtain ⟨ins, hins⟩ := h
      rw [new_err_mime mime data r hm] at hins
      cases hins
    · simp [new_err_mime mime data r hm]

/-- Witness for claim C5: empty operands are encodable, so construction
succeeds. -/
theorem new_fails_iff_operand_overflow_witness :
    ∃ ins, OrdinalsInscription.new [] [] ⟨pk0⟩ = .ok ins :=
  (new_fails_iff_operand_overflow [] [] ⟨pk0⟩).1.mpr (by decide)

/-- Claim C6: construction is deterministic — the embedding of the
construction is a pure function of (mime, data, internal key), so two runs
on identical inputs give identical scripts and identical Merkle roots; no
randomness, clock or implicit state occurs anywhere in the embedded code
path. -/
theorem construction_deterministic (mime data : Bytes) (k : PublicKey) :
    scriptOf (create_envelope mime data k) = scriptOf (create_envelope mime data k) ∧
    (spendInfoOf (create_envelope mime data k)).map TaprootSpendInfo.merkle_root =
      (spendInfoOf (create_envelope mime data k)).map TaprootSpendInfo.merkle_root :=
  ⟨rfl, rfl⟩

/-- Claim C7: the envelope script bytes do not depend on the internal
public key — any two keys yield the same script (and the same
success/failure outcome) for the same mime and data. -/
theorem script_independent_of_key (mime data : Bytes) (k1 k2 : PublicKey) :
    scriptOf (create_envelope mime data k1) = scriptOf (create_envelope mime data k2) := by
  by_cases hm : mime.length < 2 ^ 32
  · by_cases hd : data.length < 2 ^ 32
    · rw [create_envelope_ok mime data k1 hm hd, create_envelope_ok mime data k2 hm hd]
      rfl
    · rw [create_envelope_err_data mime data k1 hm hd,
        create_envelope_err_data mime data k2 hm hd]
  · rw [create_envelope_err_mime mime data k1 hm, create_envelope_err_mime mime data k2 hm]

/-- Claim C8: for operands that pass push encoding, the construction
succeeds, the single-leaf add-leaf and finalize steps both return `Ok`, the
Merkle root is present, and neither `create_envelope` nor
`OrdinalsInscription::new` ever reaches an `expect` panic. -/
theorem taproot_steps_never_fail (mime data : Bytes) (k : PublicKey)
    (hm : mime.length < 2 ^ 32) (hd : data.length < 2 ^ 32) :
    ∃ tp b, create_envelope mime data k = .ok tp ∧
      TaprootBuilder.new.add_leaf 0 tp.script = .ok b ∧
      b.finalize (xOnlyFrom k) = .ok tp.spend_info ∧
      tp.spend_info.merkle_root.isSome = true ∧
      (∀ msg, create_envelope mime data k ≠ .panicked msg) ∧
      (∀ msg, OrdinalsInscription.new mime data ⟨k⟩ ≠ .panicked msg) := by
  refine ⟨_,
    ⟨[some (NodeInfo.new_leaf_with_ver (specEnvelopeLayout mime data)
      TAPROOT_LEAF_TAPSCRIPT)]⟩,
    create_envelope_ok mime data k hm hd, rfl, rfl, rfl, fun msg => ?_, fun msg => ?_⟩
  · simp [create_envelope_ok mime data k hm hd]
  · simp [new_ok mime data ⟨k⟩ hm hd]

/-- Witness for claim C8, at `mime = "a"`, `data = "b"`. -/
theorem taproot_steps_never_fail_witness :
    ∃ tp b, create_envelope [0x61] [0x62] pk0 = .ok tp ∧
      TaprootBuilder.new.add_leaf 0 tp.script = .ok b ∧
      b.finalize (xOnlyFrom pk0) = .ok tp.spend_info ∧
      tp.spend_info.merkle_root.isSome = true ∧
      (∀ msg, create_envelope [0x61] [0x62] pk0 ≠ .panicked msg) ∧
      (∀ msg, OrdinalsInscription.new [0x61] [0x62] ⟨pk0⟩ ≠ .panicked msg) :=
  taproot_steps_never_fail [0x61] [0x62] pk0 (by decide) (by decide)

/-- Claim C9 (counterexample): for empty mime and data, the constructed
spend info is the finalization of the single-leaf tree whose leaf carries
the default tapscript leaf version `0xc0` — and it differs from what the
tree with the same leaf at leaf version 0 would give.  The `0` in
`add_leaf(0, script)` is the depth, not the leaf version, so the claim's
"leaf version 0" is wrong. -/
theorem leaf_version_not_zero :
    spendInfoOf (create_envelope [] [] pk0) =
      some (TaprootSpendInfo.from_node_info (xOnlyFrom pk0)
        (NodeInfo.new_leaf_with_ver
          [0x00, 0x63, 0x03, 0x6f, 0x72, 0x64, 0x01, 0x01, 0x00, 0x00, 0x00, 0x68]
          TAPROOT_LEAF_TAPSCRIPT)) ∧
    spendInfoOf (create_envelope [] [] pk0) ≠
      some (TaprootSpendInfo.from_node_info (xOnlyFrom pk0)
        (NodeInfo.new_leaf_with_ver
          [0x00, 0x63, 0x03, 0x6f, 0x72, 0x64, 0x01, 0x01, 0x00, 0x00, 0x00, 0x68]
          0)) := by
  decide

/-- Claim C9 (amended): the spend info of a constructed `TaprootProgram` is
the finalization of a Taproot tree containing exactly one leaf — the
envelope script, added at depth 0 with the default tapscript leaf version
`0xc0` — keyed by the x-only form of the supplied internal public key. -/
theorem single_leaf_default_tapscript_version (mime data : Bytes) (k : PublicKey)
    (hm : mime.length < 2 ^ 32) (hd : data.length < 2 ^ 32) :
    ∃ tp b, create_envelope mime data k = .ok tp ∧
      TaprootBuilder.new.add_leaf_with_ver 0 tp.script TAPROOT_LEAF_TAPSCRIPT = .ok b ∧
      b.finalize (xOnlyFrom k) = .ok tp.spend_info ∧
      tp.spend_info.leaves = [⟨tp.script, TAPROOT_LEAF_TAPSCRIPT⟩] ∧
      tp.spend_info.internal_key = xOnlyFrom k ∧
      tp.spend_info.merkle_root = some (.leafHash TAPROOT_LEAF_TAPSCRIPT tp.script) := by
  refine ⟨_,
    ⟨[some (NodeInfo.new_leaf_with_ver (specEnvelopeLayout mime data)
      TAPROOT_LEAF_TAPSCRIPT)]⟩,
    create_envelope_ok mime data k hm hd, rfl, rfl, rfl, rfl, rfl⟩

/-- Witness for the amended claim C9, at `mime = "text/plain"`,
`data = "hello"`. -/
theorem single_leaf_default_tapscript_version_witness :
    ∃ tp b, create_envelope mimeTextPlain dataHello pk0 = .ok tp ∧
      TaprootBuilder.new.add_leaf_with_ver 0 tp.script TAPROOT_LEAF_TAPSCRIPT = .ok b ∧
      b.finalize (xOnlyFrom pk0) = .ok tp.spend_info ∧
      tp.spend_info.leaves = [⟨tp.script, TAPROOT_LEAF_TAPSCRIPT⟩] ∧
      tp.spend_info.internal_key = xOnlyFrom pk0 ∧
      tp.spend_info.merkle_root = some (.leafHash TAPROOT_LEAF_TAPSCRIPT tp.script) :=
  single_leaf_default_tapscript_version mimeTextPlain dataHello pk0 (by decide) (by decide)

/-- Claim C10: `OrdinalsInscription::new` accepts empty mime and empty data
for any recipient, producing the 12-byte envelope in which the empty mime
and empty data are each encoded as a zero-length push (`0x00`) and the
extra `OP_PUSHBYTES_1` override opcode is present after the separator,
since `data.len() = 0 < 76`. -/
theorem new_accepts_empty_inputs (r : RecipientPublicKey) :
    ∃ ins, OrdinalsInscription.new [] [] r = .ok ins ∧
      ins.envelope.script =
        [OP_FALSE, OP_IF, 0x03, 0x6f, 0x72, 0x64, OP_PUSHBYTES_1, OP_PUSHBYTES_1,
          0x00, OP_PUSHBYTES_0, 0x00, OP_ENDIF] :=
  ⟨_, rfl, rfl⟩

end WalletCore
